import Mathlib

/-!
Verification of `main.py`, a paired before/after dataset synthesizer.

The source is embedded shallowly:
* numpy 1-d float arrays become `List ℝ`;
* the process-wide random stream consumed by `np.random.uniform` /
  `np.random.normal` becomes two explicit input streams `us zs : ℕ → ℝ`
  of unit-uniform and standard-normal draws, which the code maps through
  the usual location/scale transforms;
* `scipy.stats.t.ppf` and `scipy.stats.ttest_rel` are external
  collaborators, passed as oracle functions;
* `raise ValueError` becomes `Except.error` with a constructor per
  distinct failure site (including the `TypeError` that tuple-unpacking
  a missing `value_range` would raise);
* the `df.to_csv(output_file)` side effect is recorded in an explicit
  `writes` trace returned alongside the in-memory table.
-/

namespace MomStats

/-- A numpy 1-d array of floats, embedded as a list of reals. -/
abbrev Arr := List ℝ

/-- `a.mean()`: arithmetic mean (numpy divides by the length). -/
noncomputable def mean (a : Arr) : ℝ := a.sum / a.length

/-- `a.std(ddof=1) ** 2`: sample variance with `n - 1` denominator. -/
noncomputable def sampleVar (a : Arr) : ℝ :=
  (a.map (fun x => (x - mean a) ^ 2)).sum / ((a.length : ℝ) - 1)

/-- `a.std(ddof=1)`: sample standard deviation with `n - 1` denominator. -/
noncomputable def stdDdof1 (a : Arr) : ℝ := Real.sqrt (sampleVar a)

/-- `np.clip(x, lo, hi)`: clamp below by `lo`, then above by `hi`. -/
noncomputable def clip (x lo hi : ℝ) : ℝ := min (max x lo) hi

/-- `a - a.mean() + m`: recenter an array so its sample mean becomes `m`. -/
noncomputable def recenter (a : Arr) (m : ℝ) : Arr :=
  a.map (fun x => x - mean a + m)

/-- `(a - a.mean()) / s * t + m`: the rescaling expression the code applies
with `s` the current sample standard deviation and `t` the target one. -/
noncomputable def rescale (a : Arr) (s t m : ℝ) : Arr :=
  a.map (fun x => (x - mean a) / s * t + m)

/-- Elementwise sum of two arrays (`baseline + diff`). -/
def zipAdd (a b : Arr) : Arr := List.zipWith (fun x y => x + y) a b

/-- Elementwise difference of two arrays (`followup - baseline`). -/
def zipSub (a b : Arr) : Arr := List.zipWith (fun x y => x - y) a b

/-- The distinct failure sites of `generate_data`:
`invalidSampleSize` is the `ValueError` at line 10, `degenerateTarget`
the `ValueError` at line 14, and `typeError` the `TypeError` Python
raises at line 17 when `value_range` is not an unpackable pair. -/
inductive GenError
| invalidSampleSize
| degenerateTarget
| typeError
deriving DecidableEq

/-- The in-memory `pandas.DataFrame` built at lines 54-58: one genotype
label column and the two numeric columns. -/
structure GenResult where
  genotype : List String
  baseline : Arr
  followup : Arr

/-- What a `generate_data` call produces: the returned table and the
trace of file writes it performed (`df.to_csv(output_file)`, line 60). -/
structure GenOutput where
  df : GenResult
  writes : List (String × GenResult)

/-- Lines 12-16: the target-parameter solver.  `tppf df q` is the
`scipy.stats.t.ppf(q, df=df)` oracle; `sd_target` is
`abs(mean_diff) * np.sqrt(n) / abs(t_target)`. -/
noncomputable def solve_target_sd (tppf : ℕ → ℝ → ℝ) (n : ℕ)
    (mean_diff p_value : ℝ) : ℝ :=
  |mean_diff| * Real.sqrt n / |tppf (n - 1) (1 - p_value / 2)|

/-- Lines 18-24: draw `baseline` uniformly on `[min_val, max_val]`
(`min_val + (max_val - min_val) * u` for unit-uniform draws `u`), shift
its mean to `baseline_normal + offset`, and clip to the range. -/
noncomputable def make_baseline (n : ℕ) (us : ℕ → ℝ)
    (min_val max_val baseline_normal : ℝ) (data_type : String) : Arr :=
  let baseline0 := (List.range n).map (fun i => min_val + (max_val - min_val) * us i)
  let offset := if data_type = ("abnormal" : String) then (max_val - min_val) * 0.25 else 0
  let baseline1 := recenter baseline0 (baseline_normal + offset)
  baseline1.map (fun x => clip x min_val max_val)

/-- Lines 28-34: recenter the raw difference draw to `mean_diff`; if its
sample standard deviation is zero fall back to `np.full(n, mean_diff)`,
otherwise rescale it to standard deviation `sd_target`. -/
noncomputable def normalize_diff (n : ℕ) (d : Arr) (mean_diff sd_target : ℝ) : Arr :=
  let diff1 := recenter d mean_diff
  let current_sd := stdDdof1 diff1
  if current_sd = 0 then List.replicate n mean_diff
  else rescale diff1 current_sd sd_target mean_diff

/-- Lines 36-41: `followup = baseline + diff`, recentered to
`followup_normal + offset_follow` and clipped to the range. -/
noncomputable def make_followup2 (baseline diff : Arr)
    (min_val max_val followup_normal : ℝ) (data_type : String) : Arr :=
  let followup0 := zipAdd baseline diff
  let offset_follow := if data_type = ("abnormal" : String) then -((max_val - min_val) * 0.25) else 0
  let followup1 := recenter followup0 (followup_normal + offset_follow)
  followup1.map (fun x => clip x min_val max_val)

/-- Lines 43-48: the authoritative final difference.  Recompute
`followup - baseline` after clipping, recenter to `mean_diff`, and if
the sample standard deviation is nonzero rescale it to `sd_target`. -/
noncomputable def finalDiff (baseline followup2 : Arr) (mean_diff sd_target : ℝ) : Arr :=
  let diff3 := zipSub followup2 baseline
  let diff4 := recenter diff3 mean_diff
  let current_sd := stdDdof1 diff4
  if current_sd ≠ 0 then rescale diff4 current_sd sd_target mean_diff
  else diff4

/-- Lines 50-52: expand the genotype spec into one label per row,
preserving order (`genotype_list.extend([name] * count)`). -/
def expand_genotypes : List (String × ℕ) → List String
| [] => []
| (name, count) :: rest => List.replicate count name ++ expand_genotypes rest

/-- Lines 18-60 of `generate_data` once the checks have passed: the
whole successful pipeline, from the uniform baseline draw to the
returned frame and the `to_csv` write. -/
noncomputable def gen_output (mean_diff p_value : ℝ)
    (genotypes : List (String × ℕ)) (output_file : String)
    (min_val max_val baseline_normal followup_normal : ℝ)
    (data_type : String) (tppf : ℕ → ℝ → ℝ) (us zs : ℕ → ℝ) : GenOutput :=
  let n := (genotypes.map Prod.snd).sum
  let sd_target := solve_target_sd tppf n mean_diff p_value
  let baseline := make_baseline n us min_val max_val baseline_normal data_type
  let diff0 := (List.range n).map (fun i => mean_diff + sd_target * zs i)
  let diff := normalize_diff n diff0 mean_diff sd_target
  let followup2 := make_followup2 baseline diff min_val max_val followup_normal data_type
  let followup := zipAdd baseline (finalDiff baseline followup2 mean_diff sd_target)
  let df : GenResult :=
    { genotype := expand_genotypes genotypes
      baseline := baseline
      followup := followup }
  { df := df, writes := [(output_file, df)] }

/-- `generate_data` (lines 6-61), parametrized by the `t.ppf` oracle and
the two random streams.  `value_range` is the tuple unpacked at line 17;
passing `none` models a call without a usable range (Python raises
`TypeError` when unpacking). -/
noncomputable def generate_data (mean_diff p_value : ℝ)
    (genotypes : List (String × ℕ)) (output_file : String)
    (value_range : Option (ℝ × ℝ)) (baseline_normal followup_normal : ℝ)
    (data_type : String) (tppf : ℕ → ℝ → ℝ) (us zs : ℕ → ℝ) :
    Except GenError GenOutput :=
  let n := (genotypes.map Prod.snd).sum
  if n < 2 then .error .invalidSampleSize
  else
    let t_target := tppf (n - 1) (1 - p_value / 2)
    if t_target = 0 then .error .degenerateTarget
    else
      match value_range with
      | none => .error .typeError
      | some (min_val, max_val) =>
        .ok (gen_output mean_diff p_value genotypes output_file
              min_val max_val baseline_normal followup_normal data_type tppf us zs)

/-- An ingested table: named numeric columns (the pandas frame read by
`analyze_csv`). -/
structure Table where
  cols : List (String × Arr)

/-- Column lookup by name (first match), `none` when absent. -/
def lookupCol (t : Table) (name : String) : Option Arr :=
  (t.cols.find? (fun p => p.1 = name)).map Prod.snd

/-- The failure site of `analyze_csv`: the `ValueError` at line 68. -/
inductive AnalyzeError
| missingColumns
deriving DecidableEq

/-- `analyze_csv` (lines 64-72) on an already-ingested table.  `ttest f b`
is the `scipy.stats.ttest_rel(f, b)` p-value oracle.  Requires both the
`Baseline` and `Followup` columns, then returns the mean of the
elementwise difference and the paired-t-test p-value. -/
noncomputable def analyze_csv (ttest : Arr → Arr → ℝ) (t : Table) :
    Except AnalyzeError (ℝ × ℝ) :=
  match lookupCol t ("Baseline" : String), lookupCol t ("Followup" : String) with
  | some b, some f => .ok (mean (zipSub f b), ttest f b)
  | _, _ => .error .missingColumns

/-! ### Basic lemmas about the statistical primitives -/

lemma length_recenter (a : Arr) (m : ℝ) : (recenter a m).length = a.length :=
  List.length_map _ _

lemma length_rescale (a : Arr) (s t m : ℝ) : (rescale a s t m).length = a.length :=
  List.length_map _ _

lemma length_zipAdd (a b : Arr) : (zipAdd a b).length = min a.length b.length :=
  List.length_zipWith _ _ _

lemma length_zipSub (a b : Arr) : (zipSub a b).length = min a.length b.length :=
  List.length_zipWith _ _ _

lemma length_make_baseline (n : ℕ) (us : ℕ → ℝ) (mn mx bn : ℝ) (dt : String) :
    (make_baseline n us mn mx bn dt).length = n := by
  simp [make_baseline, length_recenter]

lemma length_normalize_diff (n : ℕ) (d : Arr) (md sd : ℝ) (h : d.length = n) :
    (normalize_diff n d md sd).length = n := by
  unfold normalize_diff
  by_cases hs : stdDdof1 (recenter d md) = 0
  · simp [hs]
  · simp [hs, length_rescale, length_recenter, h]

lemma length_make_followup2 (b d : Arr) (mn mx fn : ℝ) (dt : String) :
    (make_followup2 b d mn mx fn dt).length = min b.length d.length := by
  simp [make_followup2, length_recenter, length_zipAdd]

lemma ne_nil_of_length_pos {a : Arr} (h : 0 < a.length) : a ≠ [] := by
  intro hnil
  simp [hnil] at h

lemma length_cast_ne_zero {a : Arr} (h : a ≠ []) : (a.length : ℝ) ≠ 0 := by
  have : a.length ≠ 0 := by simpa [List.length_eq_zero] using h
  exact_mod_cast this

lemma sum_map_affine (a : Arr) (c b : ℝ) :
    (a.map (fun x => c * x + b)).sum = c * a.sum + a.length * b := by
  induction a with
  | nil => simp
  | cons x t ih =>
    simp only [List.map_cons, List.sum_cons, List.length_cons, ih]
    push_cast
    ring

lemma mean_map_affine (a : Arr) (h : a ≠ []) (c b : ℝ) :
    mean (a.map (fun x => c * x + b)) = c * mean a + b := by
  have hn := length_cast_ne_zero h
  unfold mean
  rw [List.length_map, sum_map_affine]
  field_simp
  ring

lemma sum_map_mul_left (a : Arr) (c : ℝ) (f : ℝ → ℝ) :
    (a.map (fun x => c * f x)).sum = c * (a.map f).sum := by
  induction a with
  | nil => simp
  | cons x t ih => simp [ih]; ring

lemma sampleVar_map_affine (a : Arr) (h : a ≠ []) (c b : ℝ) :
    sampleVar (a.map (fun x => c * x + b)) = c ^ 2 * sampleVar a := by
  unfold sampleVar
  rw [List.length_map, List.map_map, mean_map_affine a h]
  have hmap : (a.map ((fun x => (x - (c * mean a + b)) ^ 2) ∘ fun x => c * x + b))
      = a.map (fun x => c ^ 2 * (x - mean a) ^ 2) := by
    apply List.map_congr_left
    intro x _
    simp only [Function.comp]
    ring
  rw [hmap, sum_map_mul_left, mul_div_assoc]

lemma sampleVar_nonneg (a : Arr) : 0 ≤ sampleVar a := by
  cases a with
  | nil => simp [sampleVar, mean]
  | cons x t =>
    unfold sampleVar
    apply div_nonneg
    · apply List.sum_nonneg
      intro y hy
      obtain ⟨z, _, rfl⟩ := List.mem_map.mp hy
      positivity
    · simp only [List.length_cons]
      push_cast
      linarith [Nat.cast_nonneg (α := ℝ) t.length]

lemma stdDdof1_nonneg (a : Arr) : 0 ≤ stdDdof1 a := Real.sqrt_nonneg _

lemma stdDdof1_map_affine (a : Arr) (h : a ≠ []) (c b : ℝ) :
    stdDdof1 (a.map (fun x => c * x + b)) = |c| * stdDdof1 a := by
  unfold stdDdof1
  rw [sampleVar_map_affine a h, Real.sqrt_mul (sq_nonneg c), Real.sqrt_sq_eq_abs]

lemma recenter_eq_affine (a : Arr) (m : ℝ) :
    recenter a m = a.map (fun x => 1 * x + (m - mean a)) := by
  unfold recenter
  apply List.map_congr_left
  intro x _
  ring

lemma rescale_eq_affine (a : Arr) (s t m : ℝ) :
    rescale a s t m = a.map (fun x => (t / s) * x + (m - mean a / s * t)) := by
  unfold rescale
  apply List.map_congr_left
  intro x _
  ring

lemma mean_recenter (a : Arr) (h : a ≠ []) (m : ℝ) : mean (recenter a m) = m := by
  rw [recenter_eq_affine, mean_map_affine a h]
  ring

lemma mean_rescale (a : Arr) (h : a ≠ []) (s t m : ℝ) : mean (rescale a s t m) = m := by
  rw [rescale_eq_affine, mean_map_affine a h]
  ring

lemma stdDdof1_recenter (a : Arr) (h : a ≠ []) (m : ℝ) :
    stdDdof1 (recenter a m) = stdDdof1 a := by
  rw [recenter_eq_affine, stdDdof1_map_affine a h]
  simp

lemma stdDdof1_rescale (a : Arr) (h : a ≠ []) (s t m : ℝ) :
    stdDdof1 (rescale a s t m) = |t / s| * stdDdof1 a := by
  rw [rescale_eq_affine, stdDdof1_map_affine a h]

/-- Rescaling an array by its own nonzero standard deviation to a
nonnegative target standard deviation achieves that target exactly. -/
lemma stdDdof1_rescale_self (a : Arr) (h : a ≠ []) (t : ℝ)
    (hs : stdDdof1 a ≠ 0) (ht : 0 ≤ t) :
    stdDdof1 (rescale a (stdDdof1 a) t (mean a)) = t := by
  have hpos : 0 < stdDdof1 a := lt_of_le_of_ne (stdDdof1_nonneg a) (Ne.symm hs)
  rw [stdDdof1_rescale a h]
  rw [abs_div, abs_of_nonneg ht, abs_of_pos hpos]
  field_simp

lemma solve_target_sd_nonneg (tppf : ℕ → ℝ → ℝ) (n : ℕ) (md p : ℝ) :
    0 ≤ solve_target_sd tppf n md p := by
  unfold solve_target_sd
  positivity

lemma zipSub_zipAdd (b d : Arr) (h : b.length = d.length) :
    zipSub (zipAdd b d) b = d := by
  induction b generalizing d with
  | nil =>
    cases d with
    | nil => simp [zipSub, zipAdd]
    | cons y s => simp at h
  | cons x t ih =>
    cases d with
    | nil => simp at h
    | cons y s =>
      simp only [List.length_cons, Nat.succ.injEq] at h
      simp only [zipAdd, zipSub, List.zipWith_cons_cons] at *
      rw [ih s h]
      simp

/-! ### The successful path of `generate_data` -/

lemma generate_data_ok (mean_diff p_value : ℝ) (genotypes : List (String × ℕ))
    (output_file : String) (min_val max_val baseline_normal followup_normal : ℝ)
    (data_type : String) (tppf : ℕ → ℝ → ℝ) (us zs : ℕ → ℝ)
    (h2 : 2 ≤ (genotypes.map Prod.snd).sum)
    (ht : tppf ((genotypes.map Prod.snd).sum - 1) (1 - p_value / 2) ≠ 0) :
    generate_data mean_diff p_value genotypes output_file (some (min_val, max_val))
        baseline_normal followup_normal data_type tppf us zs =
      .ok (gen_output mean_diff p_value genotypes output_file
            min_val max_val baseline_normal followup_normal data_type tppf us zs) := by
  have hn : ¬ ((genotypes.map Prod.snd).sum < 2) := by omega
  simp [generate_data, hn, ht]

lemma mean_finalDiff (b f2 : Arr) (md sd : ℝ) (h : zipSub f2 b ≠ []) :
    mean (finalDiff b f2 md sd) = md := by
  have h4 : recenter (zipSub f2 b) md ≠ [] := by
    apply ne_nil_of_length_pos
    rw [length_recenter]
    exact List.length_pos.mpr h
  unfold finalDiff
  by_cases hs : stdDdof1 (recenter (zipSub f2 b) md) = 0
  · simp only [hs, ne_eq, not_true_eq_false, if_false]
    exact mean_recenter _ h md
  · simp only [ne_eq, hs, not_false_eq_true, if_true]
    exact mean_rescale _ h4 _ _ _

lemma stdDdof1_finalDiff (b f2 : Arr) (md sd : ℝ) (h : zipSub f2 b ≠ [])
    (hs : stdDdof1 (recenter (zipSub f2 b) md) ≠ 0) (hsd : 0 ≤ sd) :
    stdDdof1 (finalDiff b f2 md sd) = sd := by
  have h4 : recenter (zipSub f2 b) md ≠ [] := by
    apply ne_nil_of_length_pos
    rw [length_recenter]
    exact List.length_pos.mpr h
  have hpos : 0 < stdDdof1 (recenter (zipSub f2 b) md) :=
    lt_of_le_of_ne (stdDdof1_nonneg _) (Ne.symm hs)
  unfold finalDiff
  simp only [ne_eq, hs, not_false_eq_true, if_true]
  rw [stdDdof1_rescale _ h4, abs_div, abs_of_nonneg hsd, abs_of_pos hpos,
    div_mul_cancel₀ _ hs]

lemma make_baseline_bounds (n : ℕ) (us : ℕ → ℝ) (mn mx bn : ℝ) (dt : String)
    (h : mn ≤ mx) : ∀ x ∈ make_baseline n us mn mx bn dt, mn ≤ x ∧ x ≤ mx := by
  intro x hx
  simp only [make_baseline, List.mem_map] at hx
  obtain ⟨y, _, rfl⟩ := hx
  unfold clip
  exact ⟨le_min (le_max_right y mn) h, min_le_right _ _⟩

/-! ### Claim theorems -/

/-- C2: for `n ≥ 2` (any `n ≥ 1` suffices), nonzero `mean_diff` and a
nonzero critical t-value, the solver computes
`t_target = tppf (n-1) (1 - p_value/2)` (the inverse CDF of Student's t
at cumulative probability `1 - p_value/2` with `df = n - 1`) and sets
`sd_target = |mean_diff| * sqrt n / |t_target|`; consequently the paired
t-statistic `mean_diff / (sd_target / sqrt n)` recovers the critical
t-value in absolute value. -/
theorem c2_solver_formula (tppf : ℕ → ℝ → ℝ) (n : ℕ) (mean_diff p_value : ℝ)
    (hn : 2 ≤ n) (ht : tppf (n - 1) (1 - p_value / 2) ≠ 0) :
    solve_target_sd tppf n mean_diff p_value
        = |mean_diff| * Real.sqrt n / |tppf (n - 1) (1 - p_value / 2)| ∧
    (mean_diff ≠ 0 →
      |mean_diff| / (solve_target_sd tppf n mean_diff p_value / Real.sqrt n)
        = |tppf (n - 1) (1 - p_value / 2)|) := by
  refine ⟨rfl, fun hmd => ?_⟩
  have hs : (0:ℝ) < Real.sqrt n :=
    Real.sqrt_pos.mpr (by exact_mod_cast Nat.lt_of_lt_of_le Nat.zero_lt_two hn)
  have hA : (0:ℝ) < |mean_diff| := abs_pos.mpr hmd
  have hT : (0:ℝ) < |tppf (n - 1) (1 - p_value / 2)| := abs_pos.mpr ht
  unfold solve_target_sd
  field_simp
  ring

/-- Witness for C2 at `n = 4`, `mean_diff = 2`, `p_value = 1/2`, with a
constant inverse-CDF oracle returning `3`. -/
theorem c2_solver_formula_witness :
    solve_target_sd (fun _ _ => (3:ℝ)) 4 2 (1/2)
        = |(2:ℝ)| * Real.sqrt 4 / |(3:ℝ)| ∧
    |(2:ℝ)| / (solve_target_sd (fun _ _ => (3:ℝ)) 4 2 (1/2) / Real.sqrt 4)
        = |(3:ℝ)| :=
  And.intro (c2_solver_formula (fun _ _ => (3:ℝ)) 4 2 (1/2) (by norm_num)
      (by norm_num)).1
    ((c2_solver_formula (fun _ _ => (3:ℝ)) 4 2 (1/2) (by norm_num)
      (by norm_num)).2 (by norm_num))

/-- C6: in the first difference-normalization step, when the recentered
raw draw has zero sample standard deviation the generator falls back to
the constant array `np.full(n, mean_diff)`; the division by the sample
standard deviation (the `rescale`) is performed only on the nonzero
branch. -/
theorem c6_zero_sd_fallback (n : ℕ) (d : Arr) (mean_diff sd_target : ℝ) :
    (stdDdof1 (recenter d mean_diff) = 0 →
      normalize_diff n d mean_diff sd_target = List.replicate n mean_diff) ∧
    (stdDdof1 (recenter d mean_diff) ≠ 0 →
      normalize_diff n d mean_diff sd_target =
        rescale (recenter d mean_diff) (stdDdof1 (recenter d mean_diff))
          sd_target mean_diff) := by
  constructor <;> intro hs <;> simp [normalize_diff, hs]

/-- Witness for C6: the degenerate draw `[1, 1]` falls back to the
constant array, while `[0, 2]` takes the rescaling branch. -/
theorem c6_zero_sd_fallback_witness :
    normalize_diff 2 [(1:ℝ), 1] 5 3 = List.replicate 2 (5:ℝ) ∧
    normalize_diff 2 [(0:ℝ), 2] 5 3 =
      rescale (recenter [(0:ℝ), 2] 5) (stdDdof1 (recenter [(0:ℝ), 2] 5)) 3 5 := by
  constructor
  · apply (c6_zero_sd_fallback 2 [(1:ℝ), 1] 5 3).1
    have h1 : recenter [(1:ℝ), 1] 5 = [5, 5] := by
      norm_num [recenter, mean]
    have h2 : sampleVar [(5:ℝ), 5] = 0 := by
      norm_num [sampleVar, mean]
    show Real.sqrt (sampleVar (recenter [(1:ℝ), 1] 5)) = 0
    rw [h1, h2, Real.sqrt_zero]
  · apply (c6_zero_sd_fallback 2 [(0:ℝ), 2] 5 3).2
    have h1 : recenter [(0:ℝ), 2] 5 = [4, 6] := by
      norm_num [recenter, mean]
    have h2 : sampleVar [(4:ℝ), 6] = 2 := by
      norm_num [sampleVar, mean]
    show Real.sqrt (sampleVar (recenter [(0:ℝ), 2] 5)) ≠ 0
    rw [h1, h2]
    exact Real.sqrt_ne_zero'.mpr (by norm_num)

/-- C7: with `n ≥ 2`, when the critical t-value computed by the oracle
is exactly zero, `generate_data` fails with the degenerate-target error
(before any division by `t_target`), for every value of the remaining
arguments. -/
theorem c7_degenerate_target (mean_diff p_value : ℝ)
    (genotypes : List (String × ℕ)) (output_file : String)
    (value_range : Option (ℝ × ℝ)) (baseline_normal followup_normal : ℝ)
    (data_type : String) (tppf : ℕ → ℝ → ℝ) (us zs : ℕ → ℝ)
    (h2 : 2 ≤ (genotypes.map Prod.snd).sum)
    (ht0 : tppf ((genotypes.map Prod.snd).sum - 1) (1 - p_value / 2) = 0) :
    generate_data mean_diff p_value genotypes output_file value_range
        baseline_normal followup_normal data_type tppf us zs
      = .error .degenerateTarget := by
  have hn : ¬ ((genotypes.map Prod.snd).sum < 2) := by omega
  simp [generate_data, hn, ht0]

/-- Witness for C7: `p_value = 1` with an oracle that collapses to `0`
(as `t.ppf(1/2) = 0`) yields the degenerate-target failure. -/
theorem c7_degenerate_target_witness :
    generate_data 1 1 [(("A" : String), 2)] ("out.csv") (some (0, 1)) 0 0
        ("normal") (fun _ _ => 0) (fun _ => 0) (fun _ => 0)
      = .error .degenerateTarget :=
  c7_degenerate_target 1 1 [(("A" : String), 2)] ("out.csv") (some (0, 1)) 0 0
    ("normal") (fun _ _ => 0) (fun _ => 0) (fun _ => 0) (by decide) rfl

/-- C8: `generate_data` fails with the invalid-sample-size error exactly
when the total genotype count is below 2, for every value of the other
arguments (so the check precedes every other computation, including the
oracle check and the range unpacking). -/
theorem c8_invalid_sample_size (mean_diff p_value : ℝ)
    (genotypes : List (String × ℕ)) (output_file : String)
    (value_range : Option (ℝ × ℝ)) (baseline_normal followup_normal : ℝ)
    (data_type : String) (tppf : ℕ → ℝ → ℝ) (us zs : ℕ → ℝ) :
    generate_data mean_diff p_value genotypes output_file value_range
        baseline_normal followup_normal data_type tppf us zs
      = .error .invalidSampleSize ↔ (genotypes.map Prod.snd).sum < 2 := by
  by_cases h : (genotypes.map Prod.snd).sum < 2
  · simp [generate_data, h]
  · simp only [generate_data, h, if_false, iff_false]
    by_cases ht : tppf ((genotypes.map Prod.snd).sum - 1) (1 - p_value / 2) = 0
    · simp [ht]
    · cases value_range with
      | none => simp [ht]
      | some p =>
        cases p with
        | mk mn mx => simp [ht]

/-- C9: the analyzer fails with the missing-columns error exactly when
the ingested table lacks the `Baseline` or the `Followup` series; when
both are present it returns the mean of the elementwise difference
`Followup - Baseline` together with the paired t-test p-value comparing
`Followup` against `Baseline`. -/
theorem c9_analyzer (ttest : Arr → Arr → ℝ) (t : Table) :
    (analyze_csv ttest t = .error .missingColumns ↔
      (lookupCol t ("Baseline" : String) = none ∨
       lookupCol t ("Followup" : String) = none)) ∧
    (∀ b f, lookupCol t ("Baseline" : String) = some b →
      lookupCol t ("Followup" : String) = some f →
      analyze_csv ttest t = .ok (mean (zipSub f b), ttest f b)) := by
  constructor
  · unfold analyze_csv
    rcases hb : lookupCol t ("Baseline" : String) with _ | b <;>
      rcases hf : lookupCol t ("Followup" : String) with _ | f <;>
        simp [hb, hf]
  · intro b f hb hf
    unfold analyze_csv
    rw [hb, hf]

/-- Witness for C9: a two-row table with both columns present yields the
mean difference `5/2` and the oracle's p-value. -/
theorem c9_analyzer_witness :
    analyze_csv (fun _ _ => (1:ℝ)/2)
        ⟨[(("Baseline" : String), [(1:ℝ), 2]), (("Followup" : String), [(3:ℝ), 5])]⟩
      = .ok (5/2, 1/2) := by
  have h := (c9_analyzer (fun _ _ => (1:ℝ)/2)
      ⟨[(("Baseline" : String), [(1:ℝ), 2]), (("Followup" : String), [(3:ℝ), 5])]⟩).2
    [(1:ℝ), 2] [(3:ℝ), 5] rfl rfl
  rw [h]
  norm_num [mean, zipSub]

/-- C3 counterexample: with no usable `value_range` (the `None` case),
`generate_data` fails at the tuple unpacking of line 17 instead of
following any unbounded normal(100, 10) variant — the claimed variant
does not exist in the code. -/
theorem c3_counterexample :
    generate_data 1 (1/2) [(("A" : String), 2)] ("out.csv") none 0 0
        ("normal") (fun _ _ => 1) (fun _ => 0) (fun _ => 0)
      = .error .typeError := by
  norm_num [generate_data]

/-- C3 (amended): there is no unbounded variant.  `generate_data` always
unpacks `value_range`; whenever none is supplied, every call with
`n ≥ 2` and a nonzero critical t-value fails with the unpacking
`TypeError`, and no baseline is drawn. -/
theorem c3_no_unbounded_variant (mean_diff p_value : ℝ)
    (genotypes : List (String × ℕ)) (output_file : String)
    (baseline_normal followup_normal : ℝ) (data_type : String)
    (tppf : ℕ → ℝ → ℝ) (us zs : ℕ → ℝ)
    (h2 : 2 ≤ (genotypes.map Prod.snd).sum)
    (ht : tppf ((genotypes.map Prod.snd).sum - 1) (1 - p_value / 2) ≠ 0) :
    generate_data mean_diff p_value genotypes output_file none
        baseline_normal followup_normal data_type tppf us zs
      = .error .typeError := by
  have hn : ¬ ((genotypes.map Prod.snd).sum < 2) := by omega
  simp [generate_data, hn, ht]

/-- Witness for C3 (amended) at a concrete call. -/
theorem c3_no_unbounded_variant_witness :
    generate_data 2 (1/4) [(("B" : String), 3)] ("b.csv") none 7 9
        ("abnormal") (fun _ _ => 2) (fun _ => 1) (fun _ => 1)
      = .error .typeError :=
  c3_no_unbounded_variant 2 (1/4) [(("B" : String), 3)] ("b.csv") 7 9
    ("abnormal") (fun _ _ => 2) (fun _ => 1) (fun _ => 1) (by decide)
    (by norm_num)

/-- C4 counterexample: a call with `min = 1 > 0 = max` succeeds — the
code performs no range validation and no `InvalidRange` failure exists
anywhere in `generate_data`. -/
theorem c4_counterexample :
    ∃ w, generate_data 1 (1/2) [(("A" : String), 2)] ("o.csv") (some (1, 0))
        0 0 ("normal") (fun _ _ => 1) (fun _ => 0) (fun _ => 0) = .ok w :=
  ⟨_, generate_data_ok 1 (1/2) [(("A" : String), 2)] ("o.csv") 1 0 0 0
    ("normal") (fun _ _ => 1) (fun _ => 0) (fun _ => 0) (by decide)
    (by norm_num)⟩

/-- C4 (amended): `generate_data` performs no validation of the supplied
range: for every `value_range = (min_val, max_val)` with
`min_val ≥ max_val`, a call passing the sample-size and t-value checks
still succeeds and returns output. -/
theorem c4_no_range_check (mean_diff p_value : ℝ)
    (genotypes : List (String × ℕ)) (output_file : String)
    (min_val max_val baseline_normal followup_normal : ℝ)
    (data_type : String) (tppf : ℕ → ℝ → ℝ) (us zs : ℕ → ℝ)
    (_hge : max_val ≤ min_val)
    (h2 : 2 ≤ (genotypes.map Prod.snd).sum)
    (ht : tppf ((genotypes.map Prod.snd).sum - 1) (1 - p_value / 2) ≠ 0) :
    ∃ w, generate_data mean_diff p_value genotypes output_file
        (some (min_val, max_val)) baseline_normal followup_normal data_type
        tppf us zs = .ok w :=
  ⟨_, generate_data_ok mean_diff p_value genotypes output_file min_val max_val
    baseline_normal followup_normal data_type tppf us zs h2 ht⟩

/-- Witness for C4 (amended) at `min = max = 2`. -/
theorem c4_no_range_check_witness :
    ∃ w, generate_data 3 (1/5) [(("WT" : String), 2), (("KO" : String), 2)]
        ("w.csv") (some (2, 2)) 1 1 ("normal") (fun _ _ => 2) (fun _ => 0)
        (fun _ => 0) = .ok w :=
  c4_no_range_check 3 (1/5) [(("WT" : String), 2), (("KO" : String), 2)]
    ("w.csv") 2 2 1 1 ("normal") (fun _ _ => 2) (fun _ => 0) (fun _ => 0)
    le_rfl (by decide) (by norm_num)

/-- C5 counterexample: a successful call returns a nonempty file-write
trace — line 60 (`df.to_csv(output_file)`) writes the table to disk
inside `generate_data`, so the core does not merely return the in-memory
table. -/
theorem c5_counterexample :
    ∃ r, generate_data 1 (1/2) [(("A" : String), 2)] ("data.csv")
        (some (0, 10)) 5 5 ("normal") (fun _ _ => 1) (fun _ => 0)
        (fun _ => 0) = .ok r ∧ r.writes ≠ [] := by
  refine ⟨_, generate_data_ok 1 (1/2) [(("A" : String), 2)] ("data.csv") 0 10
    5 5 ("normal") (fun _ _ => 1) (fun _ => 0) (fun _ => 0) (by decide)
    (by norm_num), ?_⟩
  simp [gen_output]

/-- C5 (amended): besides consuming the random streams, a successful
`generate_data` call performs exactly one file write — the returned
table is written to `output_file` — and returns the same in-memory
table. -/
theorem c5_writes_output_file (mean_diff p_value : ℝ)
    (genotypes : List (String × ℕ)) (output_file : String)
    (min_val max_val baseline_normal followup_normal : ℝ)
    (data_type : String) (tppf : ℕ → ℝ → ℝ) (us zs : ℕ → ℝ)
    (h2 : 2 ≤ (genotypes.map Prod.snd).sum)
    (ht : tppf ((genotypes.map Prod.snd).sum - 1) (1 - p_value / 2) ≠ 0) :
    ∃ df, generate_data mean_diff p_value genotypes output_file
        (some (min_val, max_val)) baseline_normal followup_normal data_type
        tppf us zs = .ok { df := df, writes := [(output_file, df)] } := by
  refine ⟨(gen_output mean_diff p_value genotypes output_file min_val max_val
    baseline_normal followup_normal data_type tppf us zs).df, ?_⟩
  rw [generate_data_ok mean_diff p_value genotypes output_file min_val max_val
    baseline_normal followup_normal data_type tppf us zs h2 ht]
  rfl

/-- Witness for C5 (amended) at a concrete call. -/
theorem c5_writes_output_file_witness :
    ∃ df, generate_data 2 (1/20) [(("WT" : String), 5), (("KO" : String), 5)]
        ("paired.csv") (some (0, 100)) 50 50 ("normal") (fun _ _ => 2)
        (fun _ => 0) (fun _ => 0)
      = .ok { df := df, writes := [(("paired.csv" : String), df)] } :=
  c5_writes_output_file 2 (1/20) [(("WT" : String), 5), (("KO" : String), 5)]
    ("paired.csv") 0 100 50 50 ("normal") (fun _ _ => 2) (fun _ => 0)
    (fun _ => 0) (by decide) (by norm_num)

/-- C10: in the bounded variant with `min_val ≤ max_val`, the returned
`Baseline` column is exactly the uniform draw recentered to
`baseline_normal + offset` and clipped to the range (and never modified
afterwards), and every one of its entries lies within
`[min_val, max_val]`. -/
theorem c10_baseline_within_range (mean_diff p_value : ℝ)
    (genotypes : List (String × ℕ)) (output_file : String)
    (min_val max_val baseline_normal followup_normal : ℝ)
    (data_type : String) (tppf : ℕ → ℝ → ℝ) (us zs : ℕ → ℝ)
    (hrange : min_val ≤ max_val)
    (h2 : 2 ≤ (genotypes.map Prod.snd).sum)
    (ht : tppf ((genotypes.map Prod.snd).sum - 1) (1 - p_value / 2) ≠ 0) :
    ∃ w, generate_data mean_diff p_value genotypes output_file
        (some (min_val, max_val)) baseline_normal followup_normal data_type
        tppf us zs = .ok w ∧
      w.df.baseline = make_baseline (genotypes.map Prod.snd).sum us min_val
        max_val baseline_normal data_type ∧
      ∀ x ∈ w.df.baseline, min_val ≤ x ∧ x ≤ max_val := by
  refine ⟨_, generate_data_ok mean_diff p_value genotypes output_file min_val
    max_val baseline_normal followup_normal data_type tppf us zs h2 ht,
    rfl, ?_⟩
  intro x hx
  exact make_baseline_bounds (genotypes.map Prod.snd).sum us min_val max_val
    baseline_normal data_type hrange x hx

/-- Witness for C10 at a concrete bounded call. -/
theorem c10_baseline_within_range_witness :
    ∃ w, generate_data 2 (1/2) [(("A" : String), 2)] ("c10.csv")
        (some (0, 10)) 5 5 ("normal") (fun _ _ => 1) (fun _ => 0)
        (fun _ => 0) = .ok w ∧
      w.df.baseline = make_baseline 2 (fun _ => 0) 0 10 5 ("normal") ∧
      ∀ x ∈ w.df.baseline, 0 ≤ x ∧ x ≤ 10 :=
  c10_baseline_within_range 2 (1/2) [(("A" : String), 2)] ("c10.csv") 0 10 5 5
    ("normal") (fun _ _ => 1) (fun _ => 0) (fun _ => 0) (by norm_num)
    (by decide) (by norm_num)

/-- C1: for every successful call (`n ≥ 2`, nonzero critical t-value,
range supplied), the returned arrays satisfy
`Followup = Baseline + Diff`, where `Diff` is the post-clip difference
`followup2 - baseline` recentered so its sample mean equals `mean_diff`
exactly and, when its sample standard deviation is nonzero, rescaled so
its `ddof = 1` standard deviation equals `sd_target` exactly; the final
`Followup` is this sum with no further clipping. -/
theorem c1_final_pass_authoritative (mean_diff p_value : ℝ)
    (genotypes : List (String × ℕ)) (output_file : String)
    (min_val max_val baseline_normal followup_normal : ℝ)
    (data_type : String) (tppf : ℕ → ℝ → ℝ) (us zs : ℕ → ℝ)
    (n : ℕ) (sd : ℝ) (b f2 : Arr)
    (hn : n = (genotypes.map Prod.snd).sum)
    (h2 : 2 ≤ n)
    (ht : tppf (n - 1) (1 - p_value / 2) ≠ 0)
    (hsd : sd = solve_target_sd tppf n mean_diff p_value)
    (hb : b = make_baseline n us min_val max_val baseline_normal data_type)
    (hf2 : f2 = make_followup2 b
        (normalize_diff n ((List.range n).map (fun i => mean_diff + sd * zs i))
          mean_diff sd)
        min_val max_val followup_normal data_type) :
    generate_data mean_diff p_value genotypes output_file
        (some (min_val, max_val)) baseline_normal followup_normal data_type
        tppf us zs =
      .ok { df := { genotype := expand_genotypes genotypes
                    baseline := b
                    followup := zipAdd b (finalDiff b f2 mean_diff sd) }
            writes := [(output_file,
              { genotype := expand_genotypes genotypes
                baseline := b
                followup := zipAdd b (finalDiff b f2 mean_diff sd) })] } ∧
    mean (finalDiff b f2 mean_diff sd) = mean_diff ∧
    (stdDdof1 (recenter (zipSub f2 b) mean_diff) ≠ 0 →
      stdDdof1 (finalDiff b f2 mean_diff sd) = sd) := by
  subst hn
  subst hsd
  subst hb
  subst hf2
  have hbl := length_make_baseline (genotypes.map Prod.snd).sum us min_val
    max_val baseline_normal data_type
  have hdl : (normalize_diff (genotypes.map Prod.snd).sum
      ((List.range (genotypes.map Prod.snd).sum).map
        (fun i => mean_diff +
          solve_target_sd tppf (genotypes.map Prod.snd).sum mean_diff p_value * zs i))
      mean_diff
      (solve_target_sd tppf (genotypes.map Prod.snd).sum mean_diff p_value)).length
      = (genotypes.map Prod.snd).sum :=
    length_normalize_diff _ _ _ _ (by simp)
  have hf2l : (make_followup2
      (make_baseline (genotypes.map Prod.snd).sum us min_val max_val
        baseline_normal data_type)
      (normalize_diff (genotypes.map Prod.snd).sum
        ((List.range (genotypes.map Prod.snd).sum).map
          (fun i => mean_diff +
            solve_target_sd tppf (genotypes.map Prod.snd).sum mean_diff p_value * zs i))
        mean_diff
        (solve_target_sd tppf (genotypes.map Prod.snd).sum mean_diff p_value))
      min_val max_val followup_normal data_type).length
      = (genotypes.map Prod.snd).sum := by
    rw [length_make_followup2, hbl, hdl, min_self]
  have hne : zipSub (make_followup2
      (make_baseline (genotypes.map Prod.snd).sum us min_val max_val
        baseline_normal data_type)
      (normalize_diff (genotypes.map Prod.snd).sum
        ((List.range (genotypes.map Prod.snd).sum).map
          (fun i => mean_diff +
            solve_target_sd tppf (genotypes.map Prod.snd).sum mean_diff p_value * zs i))
        mean_diff
        (solve_target_sd tppf (genotypes.map Prod.snd).sum mean_diff p_value))
      min_val max_val followup_normal data_type)
      (make_baseline (genotypes.map Prod.snd).sum us min_val max_val
        baseline_normal data_type) ≠ [] := by
    apply ne_nil_of_length_pos
    rw [length_zipSub, hf2l, hbl, min_self]
    omega
  refine ⟨?_, mean_finalDiff _ _ _ _ hne, fun hs =>
    stdDdof1_finalDiff _ _ _ _ hne hs
      (solve_target_sd_nonneg tppf (genotypes.map Prod.snd).sum mean_diff p_value)⟩
  rw [generate_data_ok mean_diff p_value genotypes output_file min_val max_val
    baseline_normal followup_normal data_type tppf us zs h2 ht]
  rfl

/-- Witness for C1: at a concrete call, the final difference has sample
mean exactly `mean_diff = 2`. -/
theorem c1_final_pass_authoritative_witness :
    mean (finalDiff (make_baseline 2 (fun _ => 0) 0 10 5 ("normal"))
        (make_followup2 (make_baseline 2 (fun _ => 0) 0 10 5 ("normal"))
          (normalize_diff 2
            ((List.range 2).map
              (fun _ => 2 + solve_target_sd (fun _ _ => 1) 2 2 (1/2) * 0))
            2 (solve_target_sd (fun _ _ => 1) 2 2 (1/2)))
          0 10 5 ("normal"))
        2 (solve_target_sd (fun _ _ => 1) 2 2 (1/2))) = 2 :=
  (c1_final_pass_authoritative 2 (1/2) [(("A" : String), 2)] ("c1.csv") 0 10
    5 5 ("normal") (fun _ _ => 1) (fun _ => 0) (fun _ => 0) 2
    (solve_target_sd (fun _ _ => 1) 2 2 (1/2))
    (make_baseline 2 (fun _ => 0) 0 10 5 ("normal"))
    (make_followup2 (make_baseline 2 (fun _ => 0) 0 10 5 ("normal"))
      (normalize_diff 2
        ((List.range 2).map
          (fun _ => 2 + solve_target_sd (fun _ _ => 1) 2 2 (1/2) * 0))
        2 (solve_target_sd (fun _ _ => 1) 2 2 (1/2)))
      0 10 5 ("normal"))
    rfl (by norm_num) (by norm_num) rfl rfl rfl).2.1

end MomStats
